import Mathlib

/-! peer-calls: error aggregation and the start/stop completion signal

A shallow embedding of `server/errors.go` (`MultiErrorHandler`, `errIs`) and of
`main.go` (`configure`, `start`, `main`).

Modelling conventions.

* A value of the Go interface type `error` is a `GoError`; the constructor
  `GoError.nil` is the `nil` of Go.  Go compares errors by identity; here two errors
  are the same when they are equal as values, and an error created by the
  standard library or another package carries an `ident` standing for it.
* The functions of `github.com/juju/errors` and of the standard library that
  the code calls (`Cause`, `Annotate`, `Errorf`, the `Error` method,
  `errors.Is`) are modelled after their documented behaviour.  What they do
  not fix is taken from `Deps`: the text `errors.ErrorStack` renders, the
  location the runtime reports for a call site, and whether the `*Err` type of
  the linked version of juju/errors has an `Unwrap` method.
* A `strings.Builder` is the `String` written so far.
* A channel is a `Chan`; the operations a piece of code performs on the
  completion channel are listed in program order as `ChanOp`s.
* A call that may end the process (`flags.Parse` on a flag set built with
  `flag.ExitOnError`) gives a `Run`: a value returned, or an exit status.
-/

namespace PeerCalls

/-! ## Errors -/

/-- Source position recorded by `SetLocation` of juju. -/
structure Location where
  file : String
  line : Nat
  deriving DecidableEq, Repr

/-- Values of the Go interface `error`: `nil`, an error of a type outside
juju/errors (with its `Error()` text and what its `Unwrap()` gives, `nil` when
it has none), or a juju `*Err` with its fields. -/
inductive GoError where
  | nil : GoError
  | foreign (ident : String) (text : String) (inner : GoError) : GoError
  | juju (message : String) (cause : GoError) (previous : GoError)
      (location : Location) : GoError
  deriving DecidableEq, Repr

/-- What the code takes from its libraries and runtime without fixing it. -/
structure Deps where
  /-- The text of `errors.ErrorStack(err)` of juju/errors. -/
  ErrorStack : GoError → String
  /-- The location the runtime reports for the call at a line of a source file. -/
  site : String → Nat → Location
  /-- Whether the `*Err` of juju has an `Unwrap` method (returning `previous`). -/
  errUnwraps : Bool

/-- The sentinel `http.ErrServerClosed` (`errors.New("http: Server closed")`). -/
def ErrServerClosed : GoError :=
  .foreign "net/http.ErrServerClosed" "http: Server closed" .nil

/-- The function `errors.Cause` of juju: the `cause` of a `*Err` when that is not nil,
otherwise the error itself. -/
def Cause (err : GoError) : GoError :=
  let diag : GoError :=
    match err with
    | .juju _ cause _ _ => cause
    | _ => .nil
  if diag ≠ .nil then diag else err

/-- The function `errors.Annotate` of juju: nil for nil, otherwise a new `*Err` over `other`. -/
def Annotate (loc : Location) (other : GoError) (message : String) : GoError :=
  if other = .nil then .nil
  else .juju message (Cause other) other loc

/-- The function `errors.Errorf` of juju, applied to the already formatted message. -/
def Errorf (loc : Location) (formatted : String) : GoError :=
  .juju formatted .nil .nil loc

/-- The `Error()` method; `none` is the panic of calling it on nil. -/
def GoError.Error : GoError → Option String
  | .nil => none
  | .foreign _ text _ => some text
  | .juju message cause previous _ =>
    let viaCause : Bool := !(decide (Cause previous = cause)) && decide (cause ≠ .nil)
    let err : GoError := if viaCause then cause else previous
    let shown : Option String := if viaCause then cause.Error else previous.Error
    if err = .nil then some message
    else if message = "" then shown
    else shown.map (fun s => message ++ ": " ++ s)

/-- The loop of `errors.Is` of the standard library for a non-nil comparable
target: compare, then follow `Unwrap` until it is missing or gives nil. -/
def pkgErrorsIsLoop (d : Deps) (target : GoError) : GoError → Bool
  | .nil => false
  | .foreign ident text inner =>
    if GoError.foreign ident text inner = target then true
    else pkgErrorsIsLoop d target inner
  | .juju message cause previous location =>
    if GoError.juju message cause previous location = target then true
    else if d.errUnwraps then pkgErrorsIsLoop d target previous
    else false

/-- The function `errors.Is(err, target)` of the standard library. -/
def pkgErrorsIs (d : Deps) (err target : GoError) : Bool :=
  if err = .nil ∨ target = .nil then decide (err = target)
  else pkgErrorsIsLoop d target err

/-- The function `errIs` of `server/errors.go`. -/
def errIs (d : Deps) (err target : GoError) : Bool :=
  pkgErrorsIs d (Cause err) target

/-! ## MultiErrorHandler -/

/-- The struct `MultiErrorHandler`. -/
structure MultiErrorHandler where
  firstError : GoError
  errors : List GoError
  deriving DecidableEq, Repr

namespace MultiErrorHandler

/-- The zero value: no first error, a nil slice. -/
def zero : MultiErrorHandler := ⟨.nil, []⟩

/-- The method `(m *MultiErrorHandler) Add(err)`: the handler after the call. -/
def Add (m : MultiErrorHandler) (err : GoError) : MultiErrorHandler :=
  if err = .nil then m
  else
    let m1 : MultiErrorHandler :=
      if m.firstError = .nil then ⟨err, m.errors⟩ else m
    ⟨m1.firstError, m1.errors ++ [err]⟩

/-- A sequence of `Add` calls, in order. -/
def addAll (m : MultiErrorHandler) (errs : List GoError) : MultiErrorHandler :=
  errs.foldl Add m

/-- The loop `for i, err := range m.errors[1:]` of `Err`, from index `i` on,
over the string builder `sb`. -/
def errLoop (d : Deps) (indexOffset : Nat) : Nat → List GoError → String → String
  | _, [], sb => sb
  | i, err :: rest, sb =>
    let sb := sb ++ ("\n" ++ toString (i + indexOffset) ++ ". ")
    let sb := sb ++ d.ErrorStack err
    errLoop d indexOffset (i + 1) rest sb

/-- The method `(m *MultiErrorHandler) Err()`; `none` is an index-out-of-range panic. -/
def Err (d : Deps) (m : MultiErrorHandler) : Option GoError :=
  if m.errors.length ≤ 1 then some m.firstError
  else
    match m.errors[0]? with
    | none => none
    | some err =>
      let sb := ""
      let sb := sb ++ "1. "
      let sb := sb ++ d.ErrorStack err
      let indexOffset := 2
      let sb := errLoop d indexOffset 0 (m.errors.drop 1) sb
      some (Errorf (d.site "server/errors.go" 53) ("There were multiple errors:\n" ++ sb))

end MultiErrorHandler

/-! ## The completion channel -/

/-- A buffered channel of errors. -/
structure Chan where
  cap : Nat
  buf : List GoError
  closed : Bool
  deriving DecidableEq, Repr

/-- One operation of a sender on the channel. -/
inductive ChanOp where
  | send (v : GoError) : ChanOp
  | close : ChanOp
  deriving DecidableEq, Repr

/-- How an operation on a channel ends when nobody else acts on it. -/
inductive Step (α : Type) where
  | done (a : α) : Step α
  | blocked : Step α
  | panicked : Step α
  deriving DecidableEq, Repr

namespace Chan

/-- The channel `make(chan error, n)`. -/
def make (n : Nat) : Chan := ⟨n, [], false⟩

/-- The statement `ch <- v`. -/
def send (ch : Chan) (v : GoError) : Step Chan :=
  if ch.closed then .panicked
  else if ch.buf.length < ch.cap then .done ⟨ch.cap, ch.buf ++ [v], ch.closed⟩
  else .blocked

/-- The statement `close(ch)`. -/
def close (ch : Chan) : Step Chan :=
  if ch.closed then .panicked
  else .done ⟨ch.cap, ch.buf, true⟩

/-- The expression `<-ch`: the value received and the channel afterwards. -/
def recv (ch : Chan) : Step (GoError × Chan) :=
  match ch.buf with
  | v :: rest => .done (v, ⟨ch.cap, rest, ch.closed⟩)
  | [] => if ch.closed then .done (.nil, ch) else .blocked

/-- Perform operations in order. -/
def exec : Chan → List ChanOp → Step Chan
  | ch, [] => .done ch
  | ch, .send v :: ops =>
    match ch.send v with
    | .done ch1 => exec ch1 ops
    | .blocked => .blocked
    | .panicked => .panicked
  | ch, .close :: ops =>
    match ch.close with
    | .done ch1 => exec ch1 ops
    | .blocked => .blocked
    | .panicked => .panicked

end Chan

/-- Whether the operation is a send. -/
def ChanOp.isSend : ChanOp → Bool
  | .send _ => true
  | .close => false

/-! ## main.go -/

/-- A bound listener, by its address. -/
structure Listener where
  addr : String
  deriving DecidableEq, Repr

/-- The `server.StartStopper` built by `configure`. -/
structure StartStopper where
  TLSCertFile : String
  TLSKeyFile : String
  deriving DecidableEq, Repr

/-- How a call ends: it returns a value, or the process exits inside it
(`os.Exit(status)`). -/
inductive Run (α : Type) where
  | returned (a : α) : Run α
  | exited (status : Nat) : Run α
  deriving DecidableEq, Repr

/-- The sentinel `flag.ErrHelp` (`errors.New("flag: help requested")`). -/
def ErrHelp : GoError :=
  .foreign "flag.ErrHelp" "flag: help requested" .nil

/-- The call `flags.Parse(args)` on the flag set of `configure`, which is built
with `flag.ExitOnError`: when parsing the arguments meets the error `parseErr`
the process exits, with status 0 for `flag.ErrHelp` and 2 otherwise; the call
returns only when there is no error, and then returns nil. -/
def flagsParse (parseErr : GoError) : Run GoError :=
  if parseErr = .nil then .returned .nil
  else if parseErr = ErrHelp then .exited 0
  else .exited 2

/-- What the collaborators of `main.go` answer in one run. -/
structure World where
  /-- The error the flag package meets in the arguments, nil when they parse. -/
  parseErr : GoError
  /-- Error result of `server.ReadConfig(configFiles)`. -/
  readConfigErr : GoError
  /-- The fields `c.TLS.Cert` and `c.TLS.Key` of the configuration read. -/
  tlsCert : String
  tlsKey : String
  /-- Error result of `net.Listen`. -/
  listenErr : GoError
  /-- The listener `net.Listen` returns when it succeeds. -/
  listener : Listener
  /-- What `startStopper.Start(l)` returns, when it returns. -/
  startErr : GoError

/-- The function `configure`. -/
def configure (d : Deps) (w : World) :
    Run (Option Listener × Option StartStopper × GoError) :=
  match flagsParse w.parseErr with
  | .exited status => .exited status
  | .returned err =>
    if err ≠ .nil then
      .returned (none, none, Annotate (d.site "main.go" 29) err "parse flags")
    else if w.readConfigErr ≠ .nil then
      .returned (none, none, Annotate (d.site "main.go" 38) w.readConfigErr "read config")
    else if w.listenErr ≠ .nil then
      .returned (none, none, Annotate (d.site "main.go" 48) w.listenErr "listen")
    else
      .returned (some w.listener, some ⟨w.tlsCert, w.tlsKey⟩, .nil)

/-- The body of the goroutine launched by `start`, from the moment
`startStopper.Start(l)` has returned `err`: its operations on `ch`. -/
def serveRoutine (d : Deps) (err : GoError) : List ChanOp :=
  let sends : List ChanOp :=
    if !(pkgErrorsIs d (Cause err) ErrServerClosed) then
      [ChanOp.send (Annotate (d.site "main.go" 87) err "start server")]
    else []
  sends ++ [ChanOp.close]

/-- A run of `start`: the address and stop function returned (whether they are
non-nil), the operations performed on the channel `ch`, first those of `start`
itself and then those of the goroutine, and the status with which the process
exited inside `start`, if it did (then `start` returns nothing and launches no
goroutine). -/
structure Started where
  addr : Option String
  stop : Option StartStopper
  chOps : List ChanOp
  exited : Option Nat
  deriving DecidableEq, Repr

/-- The function `start`, on the channel `ch := make(chan error, 1)`. -/
def start (d : Deps) (w : World) : Started :=
  match configure d w with
  | .exited status => ⟨none, none, [], some status⟩
  | .returned (l, startStopper, err) =>
    if err ≠ .nil then
      ⟨none, none,
        [ChanOp.send (Annotate (d.site "main.go" 76) err "configure"), ChanOp.close], none⟩
    else
      ⟨l.map (fun l => l.addr), startStopper, serveRoutine d w.startErr, none⟩

/-- What `err := <-errChan` in `main` receives once the operations of `start`
have all been performed on `make(chan error, 1)`; nothing is received
(`blocked`) when no operation was performed. -/
def received (d : Deps) (w : World) : Step GoError :=
  match (Chan.make 1).exec (start d w).chOps with
  | .done ch =>
    match ch.recv with
    | .done (v, _) => .done v
    | .blocked => .blocked
    | .panicked => .panicked
  | .blocked => .blocked
  | .panicked => .panicked

/-- The exit status of the process running `main`: the status of the exit
inside `start` if there was one, otherwise 1 when the error received is not nil
and 0 when it is. -/
def mainExit (d : Deps) (w : World) : Step Nat :=
  match (start d w).exited with
  | some status => .done status
  | none =>
    match received d w with
    | .done err => if err ≠ .nil then .done 1 else .done 0
    | .blocked => .blocked
    | .panicked => .panicked

/-! ## The numbered list, as the specification words it -/

/-- Entries `k`, `k+1`, ... of the list: each a line break, its number, a dot
and a blank, and the diagnostic text of the error. -/
def numberedFrom (d : Deps) : Nat → List GoError → String
  | _, [] => ""
  | k, e :: rest =>
    "\n" ++ toString k ++ ". " ++ d.ErrorStack e ++ numberedFrom d (k + 1) rest

/-- The numbered list of the errors: entry 1 without a line break before it,
then entries 2, 3, ... in the order of the list. -/
def numberedList (d : Deps) : List GoError → String
  | [] => ""
  | e :: rest => "1. " ++ d.ErrorStack e ++ numberedFrom d 2 rest

/-- Dependencies for the concrete runs: the stack text of an error is its
`Error()` text, a call site is reported as it is written. -/
def demoDeps : Deps :=
  ⟨fun e => e.Error.getD "", fun file line => ⟨file, line⟩, true⟩

/-- The error `errors.New(text)` kept under the name `ident`. -/
def newError (ident text : String) : GoError := .foreign ident text .nil

/-- A run in which `configure` succeeds and `startStopper.Start` returns
`startErr`. -/
def demoWorld (startErr : GoError) : World :=
  ⟨.nil, .nil, "", "", .nil, ⟨"127.0.0.1:3000"⟩, startErr⟩

/-- The error `fmt.Errorf("wrap: %w", http.ErrServerClosed)`: its `Unwrap` gives
the sentinel. -/
def wrappedClosed : GoError :=
  .foreign "fmt.wrapError" "wrap: http: Server closed" ErrServerClosed

/-- A run whose arguments hold a flag that is not defined. -/
def badFlagWorld : World :=
  ⟨newError "flag" "flag provided but not defined: -x", .nil, "", "", .nil,
    ⟨"127.0.0.1:3000"⟩, .nil⟩

/-- A run in which the arguments parse, the configuration is read and
`net.Listen` fails. -/
def listenFailWorld : World :=
  ⟨.nil, .nil, "", "", newError "net" "address already in use",
    ⟨"127.0.0.1:3000"⟩, .nil⟩

/-- The error `e` after the calls `errors.Annotate(_, msg)` of the list, the
first of the list applied first. -/
def annotateAll (e : GoError) : List (Location × String) → GoError
  | [] => e
  | (loc, msg) :: rest => annotateAll (Annotate loc e msg) rest

/-- The invariant tying `firstError` to the recorded sequence. -/
def MultiErrorHandler.Inv (m : MultiErrorHandler) : Prop :=
  (m.firstError = .nil ↔ m.errors = []) ∧
    (m.errors ≠ [] → m.errors[0]? = some m.firstError) ∧
    GoError.nil ∉ m.errors

/-! ## Lemmas on `Add` -/

namespace MultiErrorHandler

theorem Add_nil (m : MultiErrorHandler) : m.Add .nil = m := by
  simp [Add]

theorem Add_errors_of_ne (m : MultiErrorHandler) (x : GoError) (hx : x ≠ .nil) :
    (m.Add x).errors = m.errors ++ [x] := by
  unfold Add
  by_cases hf : m.firstError = .nil <;> simp [hx, hf]

theorem Add_firstError_of_ne (m : MultiErrorHandler) (x : GoError) (hx : x ≠ .nil) :
    (m.Add x).firstError = if m.firstError = .nil then x else m.firstError := by
  unfold Add
  by_cases hf : m.firstError = .nil <;> simp [hx, hf]

theorem addAll_nil (m : MultiErrorHandler) : m.addAll [] = m := rfl

theorem addAll_cons (m : MultiErrorHandler) (x : GoError) (xs : List GoError) :
    m.addAll (x :: xs) = (m.Add x).addAll xs := rfl

theorem addAll_append (m : MultiErrorHandler) (xs ys : List GoError) :
    m.addAll (xs ++ ys) = (m.addAll xs).addAll ys := by
  simp [addAll, List.foldl_append]

/-- The recorded sequence after a run of `Add` calls: the non-nil arguments
are appended in order. -/
theorem addAll_errors (xs : List GoError) (m : MultiErrorHandler) :
    (m.addAll xs).errors = m.errors ++ xs.filter (fun x => decide (x ≠ .nil)) := by
  induction xs generalizing m with
  | nil => simp [addAll_nil]
  | cons x xs ih =>
    rw [addAll_cons, ih]
    by_cases hx : x = .nil
    · subst hx
      simp [Add_nil]
    · rw [Add_errors_of_ne m x hx]
      simp [hx]

/-- A first error that is set stays as it is. -/
theorem addAll_firstError_of_set (xs : List GoError) (m : MultiErrorHandler)
    (hm : m.firstError ≠ .nil) : (m.addAll xs).firstError = m.firstError := by
  induction xs generalizing m with
  | nil => rfl
  | cons x xs ih =>
    rw [addAll_cons]
    by_cases hx : x = .nil
    · subst hx
      rw [Add_nil]
      exact ih m hm
    · have h1 : (m.Add x).firstError = m.firstError := by
        rw [Add_firstError_of_ne m x hx]
        simp [hm]
      rw [ih (m.Add x) (by rw [h1]; exact hm), h1]

/-- Adding only nil changes nothing. -/
theorem addAll_replicate_nil (n : Nat) (m : MultiErrorHandler) :
    m.addAll (List.replicate n .nil) = m := by
  induction n with
  | zero => rfl
  | succ n ih => rw [List.replicate_succ, addAll_cons, Add_nil, ih]

theorem Inv_zero : Inv zero := by
  simp [Inv, zero]

theorem Inv_Add (m : MultiErrorHandler) (x : GoError) (h : Inv m) : Inv (m.Add x) := by
  by_cases hx : x = .nil
  · subst hx
    rw [Add_nil]
    exact h
  · obtain ⟨h1, h2, h3⟩ := h
    have hx2 : ¬ GoError.nil = x := fun e => hx e.symm
    refine ⟨?_, ?_, ?_⟩
    · rw [Add_firstError_of_ne m x hx, Add_errors_of_ne m x hx]
      by_cases hf : m.firstError = .nil <;> simp [hf, hx]
    · intro _
      rw [Add_firstError_of_ne m x hx, Add_errors_of_ne m x hx]
      by_cases hf : m.firstError = .nil
      · have he : m.errors = [] := h1.mp hf
        simp [hf, he]
      · have he : m.errors ≠ [] := fun e => hf (h1.mpr e)
        have h0 := h2 he
        cases hm : m.errors with
        | nil => exact absurd hm he
        | cons a t =>
          rw [hm] at h0
          simpa [hf] using h0
    · rw [Add_errors_of_ne m x hx]
      simp [h3, hx2]

theorem Inv_addAll (xs : List GoError) (m : MultiErrorHandler) (h : Inv m) :
    Inv (m.addAll xs) := by
  induction xs generalizing m with
  | nil => exact h
  | cons x xs ih => exact ih (m.Add x) (Inv_Add m x h)

/-- The loop of `Err` writes the entries `i+2`, `i+3`, ... after what the
builder holds. -/
theorem errLoop_eq (d : Deps) (rest : List GoError) (i : Nat) (sb : String) :
    errLoop d 2 i rest sb = sb ++ numberedFrom d (i + 2) rest := by
  induction rest generalizing i sb with
  | nil => simp [errLoop, numberedFrom]
  | cons e rest ih =>
    simp only [errLoop, numberedFrom]
    rw [ih (i + 1)]
    have hi : i + 1 + 2 = i + 2 + 1 := by omega
    rw [hi]
    simp [String.append_assoc]

/-- The result of `Err` on a handler holding two or more errors. -/
theorem Err_many (d : Deps) (f a b : GoError) (t : List GoError) :
    Err d ⟨f, a :: b :: t⟩ =
      some (Errorf (d.site "server/errors.go" 53)
        ("There were multiple errors:\n" ++ numberedList d (a :: b :: t))) := by
  simp [Err, numberedList, errLoop_eq]

end MultiErrorHandler

namespace MultiErrorHandler

/-- The method `Err` never panics: the index `errors[0]` is read only when the sequence has
two or more elements. -/
theorem Err_ne_none (d : Deps) (m : MultiErrorHandler) : Err d m ≠ none := by
  obtain ⟨f, es⟩ := m
  match es with
  | [] => simp [Err]
  | [a] => simp [Err]
  | a :: b :: t =>
    rw [Err_many]
    simp

end MultiErrorHandler

/-! ## The error aggregator: claims -/

namespace MultiErrorHandler

/-- C1: on a fresh handler, a sequence of `Add` calls whose only non-nil
argument is `e`, with any number of nil arguments before and after it, makes
`Err` return `e` itself. -/
theorem C1_single_error_is_returned (d : Deps) (a b : Nat) (e : GoError)
    (he : e ≠ .nil) :
    Err d (zero.addAll (List.replicate a .nil ++ e :: List.replicate b .nil)) = some e := by
  rw [addAll_append, addAll_replicate_nil, addAll_cons, addAll_replicate_nil]
  simp [Err, Add, zero, he]

/-- C1 at two nil arguments, the error "boom", and one nil argument. -/
theorem C1_single_error_is_returned_witness :
    newError "a" "boom" ≠ GoError.nil ∧
      Err demoDeps (zero.addAll (List.replicate 2 .nil ++
        newError "a" "boom" :: List.replicate 1 .nil)) = some (newError "a" "boom") :=
  ⟨by decide, C1_single_error_is_returned demoDeps 2 1 (newError "a" "boom") (by decide)⟩

/-- C2: for two or more non-nil errors added in order to a fresh handler,
`Err` returns a new non-nil error whose `Error()` text is the preamble followed
by the numbered list: "1. " and the stack text of the first error, then for
each later error a line break, its 1-based number, ". " and its stack text,
in insertion order. -/
theorem C2_many_errors_numbered (d : Deps) (es : List GoError)
    (hlen : 2 ≤ es.length) (hne : ∀ e ∈ es, e ≠ .nil) :
    ∃ r, Err d (zero.addAll es) = some r ∧ r ≠ .nil ∧
      r = .juju ("There were multiple errors:\n" ++ numberedList d es) .nil .nil
        (d.site "server/errors.go" 53) ∧
      r.Error = some ("There were multiple errors:\n" ++ numberedList d es) ∧
      (zero.addAll es).errors = es := by
  have hfil : es.filter (fun x => decide (x ≠ .nil)) = es := by
    rw [List.filter_eq_self]
    intro x hx
    simpa using hne x hx
  have herr : (zero.addAll es).errors = es := by
    rw [addAll_errors, hfil]
    simp [zero]
  match es, hlen, herr with
  | a :: b :: t, _, herr =>
    have hm : ∀ m : MultiErrorHandler, m.errors = a :: b :: t →
        Err d m = some (Errorf (d.site "server/errors.go" 53)
          ("There were multiple errors:\n" ++ numberedList d (a :: b :: t))) := by
      intro m hmm
      obtain ⟨f, l⟩ := m
      simp only at hmm
      subst hmm
      exact Err_many d f a b t
    refine ⟨_, ?_, ?_, rfl, ?_, herr⟩
    · rw [hm _ herr]
      rfl
    · simp
    · simp [GoError.Error]

/-- C2 at the three errors "boom", "bang" and "crash". -/
theorem C2_many_errors_numbered_witness :
    ∃ r, Err demoDeps (zero.addAll [newError "a" "boom", newError "b" "bang",
        newError "c" "crash"]) = some r ∧ r ≠ .nil ∧
      r = .juju ("There were multiple errors:\n" ++ numberedList demoDeps
        [newError "a" "boom", newError "b" "bang", newError "c" "crash"]) .nil .nil
        (demoDeps.site "server/errors.go" 53) ∧
      r.Error = some ("There were multiple errors:\n" ++ numberedList demoDeps
        [newError "a" "boom", newError "b" "bang", newError "c" "crash"]) ∧
      (zero.addAll [newError "a" "boom", newError "b" "bang",
        newError "c" "crash"]).errors =
        [newError "a" "boom", newError "b" "bang", newError "c" "crash"] :=
  C2_many_errors_numbered demoDeps
    [newError "a" "boom", newError "b" "bang", newError "c" "crash"]
    (by decide) (by decide)

/-- C3, as the claim states it, fails: with the two errors "boom" and "bang"
the text of the error returned is "There were multiple errors:" and the list;
it is not "multiple errors occurred" followed by the list, and that preamble
occurs nowhere in it. -/
theorem C3_preamble_counterexample :
    (Err demoDeps (zero.addAll [newError "a" "boom", newError "b" "bang"])).map GoError.Error
        = some (some "There were multiple errors:\n1. boom\n2. bang") ∧
      (Err demoDeps (zero.addAll [newError "a" "boom", newError "b" "bang"])).map GoError.Error
        ≠ some (some ("multiple errors occurred" ++
            numberedList demoDeps [newError "a" "boom", newError "b" "bang"])) ∧
      ¬ ("multiple errors occurred".data <:+:
          "There were multiple errors:\n1. boom\n2. bang".data) := by
  refine ⟨by decide, by decide, by decide⟩

/-- C3, amended: for every handler holding two or more errors, `Err` returns an
error whose message, and whose `Error()` text, is "There were multiple
errors:", a line break, and the numbered list of the errors. -/
theorem C3_preamble_amended (d : Deps) (m : MultiErrorHandler)
    (hlen : 2 ≤ m.errors.length) :
    Err d m = some (.juju ("There were multiple errors:\n" ++ numberedList d m.errors)
        .nil .nil (d.site "server/errors.go" 53)) ∧
      (GoError.juju ("There were multiple errors:\n" ++ numberedList d m.errors)
        .nil .nil (d.site "server/errors.go" 53)).Error
        = some ("There were multiple errors:\n" ++ numberedList d m.errors) := by
  obtain ⟨f, es⟩ := m
  match es, hlen with
  | a :: b :: t, _ =>
    refine ⟨?_, ?_⟩
    · rw [Err_many]
      rfl
    · simp [GoError.Error]

/-- C3 as amended, at the two errors "boom" and "bang". -/
theorem C3_preamble_amended_witness :
    2 ≤ (zero.addAll [newError "a" "boom", newError "b" "bang"]).errors.length ∧
      Err demoDeps (zero.addAll [newError "a" "boom", newError "b" "bang"]) =
        some (.juju ("There were multiple errors:\n" ++ numberedList demoDeps
          (zero.addAll [newError "a" "boom", newError "b" "bang"]).errors)
          .nil .nil (demoDeps.site "server/errors.go" 53)) :=
  ⟨by decide,
    (C3_preamble_amended demoDeps (zero.addAll [newError "a" "boom", newError "b" "bang"])
      (by decide)).1⟩

/-- C6: on a handler that starts from the zero value and gets no `Add` call or
only `Add(nil)` calls, `Err` returns nil. -/
theorem C6_no_error_gives_nil (d : Deps) (n : Nat) :
    Err d (zero.addAll (List.replicate n .nil)) = some GoError.nil := by
  rw [addAll_replicate_nil]
  simp [Err, zero]

/-- C7: `Add(nil)` returns the handler as it was, both fields; so a run of
`Add` calls with nil arguments inserted at any position leaves the same
handler, hence the same recorded sequence and the same `Err` result, as the
run without them, and as the run with every nil argument removed. -/
theorem C7_add_nil_is_noop (d : Deps) (m : MultiErrorHandler) :
    m.Add .nil = m ∧
      (m.Add .nil).firstError = m.firstError ∧ (m.Add .nil).errors = m.errors ∧
      (∀ (pre post : List GoError) (n : Nat),
        m.addAll (pre ++ List.replicate n .nil ++ post) = m.addAll (pre ++ post) ∧
        (m.addAll (pre ++ List.replicate n .nil ++ post)).errors
          = (m.addAll (pre ++ post)).errors ∧
        Err d (m.addAll (pre ++ List.replicate n .nil ++ post))
          = Err d (m.addAll (pre ++ post))) ∧
      (∀ xs : List GoError,
        m.addAll xs = m.addAll (xs.filter (fun x => decide (x ≠ .nil))) ∧
        (m.addAll xs).errors = m.errors ++ xs.filter (fun x => decide (x ≠ .nil)) ∧
        Err d (m.addAll xs) = Err d (m.addAll (xs.filter (fun x => decide (x ≠ .nil))))) := by
  have hins : ∀ (pre post : List GoError) (n : Nat),
      m.addAll (pre ++ List.replicate n .nil ++ post) = m.addAll (pre ++ post) := by
    intro pre post n
    rw [addAll_append, addAll_append, addAll_replicate_nil, ← addAll_append]
  have hfil : ∀ (xs : List GoError) (k : MultiErrorHandler),
      k.addAll xs = k.addAll (xs.filter (fun x => decide (x ≠ .nil))) := by
    intro xs
    induction xs with
    | nil => intro k; rfl
    | cons x xs ih =>
      intro k
      by_cases hx : x = .nil
      · subst hx
        rw [addAll_cons, Add_nil, ih k]
        simp
      · rw [addAll_cons, ih (k.Add x)]
        simp [hx, addAll_cons]
  refine ⟨Add_nil m, by rw [Add_nil], by rw [Add_nil], ?_, ?_⟩
  · intro pre post n
    refine ⟨hins pre post n, by rw [hins pre post n], by rw [hins pre post n]⟩
  · intro xs
    refine ⟨hfil xs m, addAll_errors xs m, ?_⟩
    rw [← hfil xs m]

/-- C8: once a non-nil `e` is the first non-nil error added to a fresh handler,
`firstError` is `e` after every later run of `Add` calls, and the recorded
sequence is `e` followed by the later non-nil arguments in order; one more
non-nil `Add` keeps `firstError` and appends its argument at the end. -/
theorem C8_first_error_frozen (a : Nat) (e : GoError) (he : e ≠ .nil)
    (later : List GoError) :
    ((zero.addAll (List.replicate a .nil ++ [e])).addAll later).firstError = e ∧
      ((zero.addAll (List.replicate a .nil ++ [e])).addAll later).errors
        = e :: later.filter (fun x => decide (x ≠ .nil)) ∧
      (∀ x : GoError, x ≠ .nil →
        (((zero.addAll (List.replicate a .nil ++ [e])).addAll later).Add x).firstError = e ∧
        (((zero.addAll (List.replicate a .nil ++ [e])).addAll later).Add x).errors
          = ((zero.addAll (List.replicate a .nil ++ [e])).addAll later).errors ++ [x]) := by
  have h0 : zero.addAll (List.replicate a .nil ++ [e]) = ⟨e, [e]⟩ := by
    rw [addAll_append, addAll_replicate_nil, addAll_cons, addAll_nil]
    simp [Add, zero, he]
  rw [h0]
  have hf : ((⟨e, [e]⟩ : MultiErrorHandler).addAll later).firstError = e :=
    addAll_firstError_of_set later ⟨e, [e]⟩ he
  refine ⟨hf, ?_, ?_⟩
  · rw [addAll_errors]
    rfl
  · intro x hx
    refine ⟨?_, Add_errors_of_ne _ x hx⟩
    rw [Add_firstError_of_ne _ x hx, hf]
    simp [he]

/-- C8 at one nil argument, the error "boom", then "bang", nil and "crash". -/
theorem C8_first_error_frozen_witness :
    newError "a" "boom" ≠ GoError.nil ∧
      ((zero.addAll (List.replicate 1 .nil ++ [newError "a" "boom"])).addAll
        [newError "b" "bang", .nil, newError "c" "crash"]).firstError = newError "a" "boom" ∧
      ((zero.addAll (List.replicate 1 .nil ++ [newError "a" "boom"])).addAll
        [newError "b" "bang", .nil, newError "c" "crash"]).errors
        = [newError "a" "boom", newError "b" "bang", newError "c" "crash"] :=
  ⟨by decide,
    (C8_first_error_frozen 1 (newError "a" "boom") (by decide)
      [newError "b" "bang", .nil, newError "c" "crash"]).1,
    by decide⟩

/-- C10: for every handler reached from the zero value by `Add` calls,
`firstError` is nil exactly when the recorded sequence is empty, otherwise it
is the first recorded error, and no recorded error is nil; so with at most one
recorded error `Err` returns nil for the empty sequence and its sole element
otherwise, and `Err` never indexes out of range. -/
theorem C10_reachable_invariant (d : Deps) (xs : List GoError) :
    ((zero.addAll xs).firstError = .nil ↔ (zero.addAll xs).errors = []) ∧
      ((zero.addAll xs).errors ≠ [] →
        (zero.addAll xs).errors[0]? = some (zero.addAll xs).firstError) ∧
      GoError.nil ∉ (zero.addAll xs).errors ∧
      ((zero.addAll xs).errors.length ≤ 1 →
        Err d (zero.addAll xs) = some ((zero.addAll xs).errors.headD .nil)) ∧
      Err d (zero.addAll xs) ≠ none ∧
      (1 < (zero.addAll xs).errors.length → (zero.addAll xs).errors[0]? ≠ none) := by
  obtain ⟨h1, h2, h3⟩ := Inv_addAll xs zero Inv_zero
  refine ⟨h1, h2, h3, ?_, ?_, ?_⟩
  · intro hle
    cases hm : (zero.addAll xs).errors with
    | nil =>
      have hf := h1.mpr hm
      simp [Err, hm, hf]
    | cons e t =>
      have h0 := h2 (by rw [hm]; simp)
      rw [hm] at h0
      simp only [List.getElem?_cons_zero, Option.some.injEq] at h0
      simp [Err, hle, ← h0]
  · exact Err_ne_none d (zero.addAll xs)
  · intro hlt
    cases hm : (zero.addAll xs).errors with
    | nil => rw [hm] at hlt; simp at hlt
    | cons e t => simp

end MultiErrorHandler

/-! ## The completion signal of `start` -/

theorem Cause_ne_nil (e : GoError) (he : e ≠ .nil) : Cause e ≠ .nil := by
  cases e with
  | nil => exact absurd rfl he
  | foreign i t n => simp [Cause]
  | juju m c p l =>
    by_cases hc : c = .nil <;> simp [Cause, hc]

theorem Annotate_of_ne (loc : Location) (e : GoError) (msg : String) (he : e ≠ .nil) :
    Annotate loc e msg = .juju msg (Cause e) e loc := by
  simp [Annotate, he]

theorem Cause_Annotate (loc : Location) (e : GoError) (msg : String) (he : e ≠ .nil) :
    Cause (Annotate loc e msg) = Cause e := by
  rw [Annotate_of_ne loc e msg he]
  have h := Cause_ne_nil e he
  generalize Cause e = c at h ⊢
  simp [Cause, h]

theorem annotateAll_spec (notes : List (Location × String)) (e : GoError) (he : e ≠ .nil) :
    annotateAll e notes ≠ .nil ∧ Cause (annotateAll e notes) = Cause e := by
  induction notes generalizing e with
  | nil => exact ⟨he, rfl⟩
  | cons n rest ih =>
    obtain ⟨loc, msg⟩ := n
    have hne : Annotate loc e msg ≠ .nil := by
      rw [Annotate_of_ne loc e msg he]
      simp
    obtain ⟨h1, h2⟩ := ih (Annotate loc e msg) hne
    exact ⟨h1, by rw [← Cause_Annotate loc e msg he]; exact h2⟩

theorem pkgErrorsIs_ErrServerClosed (d : Deps) :
    pkgErrorsIs d ErrServerClosed ErrServerClosed = true := by
  simp [pkgErrorsIs, pkgErrorsIsLoop, ErrServerClosed]

theorem pkgErrorsIs_nil (d : Deps) : pkgErrorsIs d .nil ErrServerClosed = false := by
  simp [pkgErrorsIs, ErrServerClosed]

/-- The run of `start` when `configure` returns a nil error: the operations on
the channel are those of the goroutine, and the process does not exit. -/
theorem start_of_configured (d : Deps) (w : World)
    (hcfg : ∃ l s, configure d w = .returned (l, s, .nil)) :
    (start d w).chOps = serveRoutine d w.startErr ∧ (start d w).exited = none := by
  obtain ⟨l, s, hc⟩ := hcfg
  unfold start
  rw [hc]
  simp

/-- The run of `start` when `configure` returns an error that is not nil. -/
theorem start_of_failed (d : Deps) (w : World) (l : Option Listener)
    (s : Option StartStopper) (err : GoError)
    (hc : configure d w = .returned (l, s, err)) (herr : err ≠ .nil) :
    (start d w).chOps =
      [ChanOp.send (Annotate (d.site "main.go" 76) err "configure"), ChanOp.close] := by
  unfold start
  rw [hc]
  simp [herr]

/-- The run of `start` when the process exits inside `configure`: nothing is done
on the channel. -/
theorem start_of_exited (d : Deps) (w : World) (status : Nat)
    (hc : configure d w = .exited status) :
    (start d w).chOps = [] ∧ (start d w).exited = some status := by
  unfold start
  rw [hc]
  simp

/-- The operations of `start` on the channel when the process does not exit
inside it: a close, with at most one send before it. -/
theorem start_chOps_shape (d : Deps) (w : World) (hrun : (start d w).exited = none) :
    (∃ v, (start d w).chOps = [ChanOp.send v, ChanOp.close]) ∨
      (start d w).chOps = [ChanOp.close] := by
  rcases hc : configure d w with ⟨l, s, err⟩ | status
  · by_cases herr : err = .nil
    · subst herr
      rw [(start_of_configured d w ⟨l, s, hc⟩).1]
      unfold serveRoutine
      cases pkgErrorsIs d (Cause w.startErr) ErrServerClosed
      · exact Or.inl ⟨_, rfl⟩
      · exact Or.inr rfl
    · rw [start_of_failed d w l s err hc herr]
      exact Or.inl ⟨_, rfl⟩
  · rw [(start_of_exited d w status hc).2] at hrun
    simp at hrun

/-- C4: when `configure` succeeded and the error `Start` returns has
`http.ErrServerClosed` as its cause (the test `errors.Is(errors.Cause(err),
http.ErrServerClosed)` of the code, which is `errIs`), the goroutine sends
nothing and only closes the channel, so the receiver in `main` gets nil and
the exit status is 0; the test holds for `http.ErrServerClosed` under any
number of juju annotations. -/
theorem C4_intentional_closure_sends_nothing (d : Deps) (w : World)
    (hcfg : ∃ l s, configure d w = .returned (l, s, .nil))
    (hclosed : pkgErrorsIs d (Cause w.startErr) ErrServerClosed = true) :
    errIs d w.startErr ErrServerClosed = true ∧
      serveRoutine d w.startErr = [ChanOp.close] ∧
      (start d w).chOps = [ChanOp.close] ∧
      (Chan.make 1).exec (start d w).chOps = .done ⟨1, [], true⟩ ∧
      received d w = .done .nil ∧
      mainExit d w = .done 0 ∧
      (∀ notes : List (Location × String),
        pkgErrorsIs d (Cause (annotateAll ErrServerClosed notes)) ErrServerClosed = true ∧
        serveRoutine d (annotateAll ErrServerClosed notes) = [ChanOp.close]) := by
  have hs : serveRoutine d w.startErr = [ChanOp.close] := by
    simp [serveRoutine, hclosed]
  obtain ⟨hst, hex⟩ := start_of_configured d w hcfg
  have hops : (start d w).chOps = [ChanOp.close] := by
    rw [hst, hs]
  have hrecv : received d w = .done .nil := by
    simp [received, hops, Chan.exec, Chan.close, Chan.make, Chan.recv]
  refine ⟨hclosed, hs, hops, ?_, hrecv, ?_, ?_⟩
  · rw [hops]
    simp [Chan.exec, Chan.close, Chan.make]
  · simp [mainExit, hrecv, hex]
  · intro notes
    have hc : Cause (annotateAll ErrServerClosed notes) = ErrServerClosed := by
      rw [(annotateAll_spec notes ErrServerClosed (by simp [ErrServerClosed])).2]
      simp [Cause, ErrServerClosed]
    have hi : pkgErrorsIs d (Cause (annotateAll ErrServerClosed notes)) ErrServerClosed
        = true := by
      rw [hc]
      exact pkgErrorsIs_ErrServerClosed d
    exact ⟨hi, by simp [serveRoutine, hi]⟩

/-- C4 at a run where `Start` returns `http.ErrServerClosed` under one juju
annotation. -/
theorem C4_intentional_closure_sends_nothing_witness :
    (∃ l s, configure demoDeps (demoWorld
        (Annotate ⟨"server.go", 10⟩ ErrServerClosed "serve")) = .returned (l, s, .nil)) ∧
      pkgErrorsIs demoDeps
        (Cause (demoWorld (Annotate ⟨"server.go", 10⟩ ErrServerClosed "serve")).startErr)
        ErrServerClosed = true ∧
      (start demoDeps (demoWorld
        (Annotate ⟨"server.go", 10⟩ ErrServerClosed "serve"))).chOps = [ChanOp.close] ∧
      received demoDeps (demoWorld
        (Annotate ⟨"server.go", 10⟩ ErrServerClosed "serve")) = .done .nil :=
  ⟨⟨_, _, rfl⟩, by decide,
    (C4_intentional_closure_sends_nothing demoDeps
      (demoWorld (Annotate ⟨"server.go", 10⟩ ErrServerClosed "serve"))
      ⟨_, _, rfl⟩ (by decide)).2.2.1,
    (C4_intentional_closure_sends_nothing demoDeps
      (demoWorld (Annotate ⟨"server.go", 10⟩ ErrServerClosed "serve"))
      ⟨_, _, rfl⟩ (by decide)).2.2.2.2.1⟩

/-- C5, as the claim states it, fails: when `Start` returns
`fmt.Errorf("wrap: %w", http.ErrServerClosed)` the error is not nil and its
cause is the wrapping error, not `http.ErrServerClosed`, yet `errors.Is` follows
`Unwrap` to the sentinel, so the goroutine sends nothing and only closes the
channel and `main` receives nil; so it is whether or not the `*Err` of juju has
an `Unwrap` method. -/
theorem C5_wrapped_closure_counterexample :
    (∃ l s, configure demoDeps (demoWorld wrappedClosed) = .returned (l, s, .nil)) ∧
      (demoWorld wrappedClosed).startErr ≠ .nil ∧
      Cause (demoWorld wrappedClosed).startErr = wrappedClosed ∧
      Cause (demoWorld wrappedClosed).startErr ≠ ErrServerClosed ∧
      (start demoDeps (demoWorld wrappedClosed)).chOps = [ChanOp.close] ∧
      (start ⟨demoDeps.ErrorStack, demoDeps.site, false⟩ (demoWorld wrappedClosed)).chOps
        = [ChanOp.close] ∧
      received demoDeps (demoWorld wrappedClosed) = .done .nil ∧
      mainExit demoDeps (demoWorld wrappedClosed) = .done 0 :=
  ⟨⟨_, _, rfl⟩, by decide, by decide, by decide, by decide, by decide, by decide, by decide⟩

/-- C5, amended: when `configure` succeeded and `Start` returns a non-nil error
for which the test of the code, `errors.Is(errors.Cause(err),
http.ErrServerClosed)`, fails, the goroutine sends one error and then closes
the channel; the error sent is not nil, it is the juju annotation "start
server" of the original error (its `previous`), and its cause is the cause of
the original error; the receiver in `main` gets it and the exit status is 1. -/
theorem C5_serving_failure_is_reported (d : Deps) (w : World)
    (hcfg : ∃ l s, configure d w = .returned (l, s, .nil)) (hne : w.startErr ≠ .nil)
    (hfail : pkgErrorsIs d (Cause w.startErr) ErrServerClosed = false) :
    (start d w).chOps =
        [ChanOp.send (Annotate (d.site "main.go" 87) w.startErr "start server"),
          ChanOp.close] ∧
      Annotate (d.site "main.go" 87) w.startErr "start server" =
        .juju "start server" (Cause w.startErr) w.startErr (d.site "main.go" 87) ∧
      Annotate (d.site "main.go" 87) w.startErr "start server" ≠ .nil ∧
      Cause (Annotate (d.site "main.go" 87) w.startErr "start server") = Cause w.startErr ∧
      (Chan.make 1).exec (start d w).chOps =
        .done ⟨1, [Annotate (d.site "main.go" 87) w.startErr "start server"], true⟩ ∧
      received d w = .done (Annotate (d.site "main.go" 87) w.startErr "start server") ∧
      mainExit d w = .done 1 := by
  obtain ⟨hst, hex⟩ := start_of_configured d w hcfg
  have hops : (start d w).chOps =
      [ChanOp.send (Annotate (d.site "main.go" 87) w.startErr "start server"),
        ChanOp.close] := by
    rw [hst]
    simp [serveRoutine, hfail]
  have hann := Annotate_of_ne (d.site "main.go" 87) w.startErr "start server" hne
  have hnn : Annotate (d.site "main.go" 87) w.startErr "start server" ≠ .nil := by
    rw [hann]
    simp
  have hrecv : received d w =
      .done (Annotate (d.site "main.go" 87) w.startErr "start server") := by
    simp [received, hops, Chan.exec, Chan.send, Chan.close, Chan.make, Chan.recv]
  refine ⟨hops, hann, hnn, Cause_Annotate _ _ _ hne, ?_, hrecv, ?_⟩
  · rw [hops]
    simp [Chan.exec, Chan.send, Chan.close, Chan.make]
  · simp [mainExit, hrecv, hnn, hex]

/-- C5 as amended, at a run where `Start` returns the error "accept failed". -/
theorem C5_serving_failure_is_reported_witness :
    (∃ l s, configure demoDeps (demoWorld (newError "io" "accept failed"))
        = .returned (l, s, .nil)) ∧
      (demoWorld (newError "io" "accept failed")).startErr ≠ .nil ∧
      pkgErrorsIs demoDeps (Cause (demoWorld (newError "io" "accept failed")).startErr)
        ErrServerClosed = false ∧
      received demoDeps (demoWorld (newError "io" "accept failed")) =
        .done (.juju "start server" (newError "io" "accept failed")
          (newError "io" "accept failed") ⟨"main.go", 87⟩) ∧
      mainExit demoDeps (demoWorld (newError "io" "accept failed")) = .done 1 :=
  ⟨⟨_, _, rfl⟩, by decide, by decide, by decide,
    (C5_serving_failure_is_reported demoDeps (demoWorld (newError "io" "accept failed"))
      ⟨_, _, rfl⟩ (by decide) (by decide)).2.2.2.2.2.2⟩

/-- C9, as the claim states it, fails: when the arguments hold a flag that is
not defined, `flags.Parse` exits the process with status 2 inside `configure`;
`start` has made the channel but nothing is sent on it and it is never closed. -/
theorem C9_parse_exit_counterexample :
    flagsParse badFlagWorld.parseErr = .exited 2 ∧
      configure demoDeps badFlagWorld = .exited 2 ∧
      (start demoDeps badFlagWorld).exited = some 2 ∧
      (start demoDeps badFlagWorld).chOps = [] ∧
      (start demoDeps badFlagWorld).chOps.count ChanOp.close = 0 ∧
      (start demoDeps badFlagWorld).chOps.count ChanOp.close ≠ 1 ∧
      received demoDeps badFlagWorld = .blocked ∧
      mainExit demoDeps badFlagWorld = .done 2 :=
  ⟨by decide, by decide, by decide, by decide, by decide, by decide, by decide, by decide⟩

/-- C9, amended: in every run of `start` in which the process does not exit
inside `start` (whatever `configure` and `Start` return), at most one value is
sent on the channel, the channel is closed exactly once, the close is the last
operation and everything before it is a send, and on `make(chan error, 1)` the
operations neither block nor panic. -/
theorem C9_completion_signal_once (d : Deps) (w : World)
    (hrun : (start d w).exited = none) :
    ((start d w).chOps.filter ChanOp.isSend).length ≤ 1 ∧
      (start d w).chOps.count ChanOp.close = 1 ∧
      (∃ pre, (start d w).chOps = pre ++ [ChanOp.close] ∧
        ∀ op ∈ pre, op.isSend = true) ∧
      (∃ ch, (Chan.make 1).exec (start d w).chOps = .done ch ∧ ch.closed = true) := by
  rcases start_chOps_shape d w hrun with ⟨v, h⟩ | h
  · rw [h]
    refine ⟨by simp [ChanOp.isSend], by simp [List.count_cons], ⟨[ChanOp.send v], rfl, ?_⟩, ?_⟩
    · intro op hop
      simp at hop
      subst hop
      rfl
    · simp [Chan.exec, Chan.send, Chan.close, Chan.make]
  · rw [h]
    refine ⟨by simp [ChanOp.isSend], by simp [List.count_cons], ⟨[], rfl, ?_⟩, ?_⟩
    · intro op hop
      simp at hop
    · simp [Chan.exec, Chan.close, Chan.make]

/-- C9 as amended, at a run where `net.Listen` fails: the annotated error is
sent and the channel is then closed. -/
theorem C9_completion_signal_once_witness :
    (start demoDeps listenFailWorld).exited = none ∧
      (start demoDeps listenFailWorld).chOps =
        [ChanOp.send (.juju "configure" (newError "net" "address already in use")
          (.juju "listen" (newError "net" "address already in use")
            (newError "net" "address already in use") ⟨"main.go", 48⟩) ⟨"main.go", 76⟩),
          ChanOp.close] ∧
      (start demoDeps listenFailWorld).chOps.count ChanOp.close = 1 :=
  ⟨by decide, by decide,
    (C9_completion_signal_once demoDeps listenFailWorld (by decide)).2.1⟩

end PeerCalls
